import Mathlib

/-!
Verification development for the CS2-DeepScope service.

Shallow embedding of the repository's core modules:
* `ProfileFetcher` (profile fetching and response normalization),
* `GCConnection` (game-coordinator readiness state machine),
* `SteamAuth` (login-method selection, credential persistence, disconnect watchdog),
* `APIServer` (HTTP status mapping of the profile endpoint).

Asynchronous event-driven control flow is embedded as explicit state passing:
the per-request listener registration of the underlying event emitter is a
counted resource, and each terminal scenario of an async operation (response,
timeout, send failure, ...) is an explicit case of the embedding.
-/

namespace DeepScope

/-! ### Steam ID validation (src/unnamed/part_000, line 91)

The code tests the identifier against the regular expression matching
exactly 17 decimal digits. -/

/-- Validation used by `ProfileFetcher.fetchProfile`, `saveProfileToFile`,
`loadProfileFromFile` and the API route: the string consists of exactly 17
decimal digits. -/
def isValidSteamId64 (s : String) : Bool :=
  s.length == 17 && s.data.all Char.isDigit

/-! ### Profile response data model (src/unnamed/part_002, lines 114-157)

`display_items_defidx` is typed as `number[]`, but the parser defensively
filters entries with a `typeof id === 'number'` check, so an entry in the
embedding is either a number or some non-numeric runtime value (embedded
as a string). -/

/-- A runtime entry of the `display_items_defidx` array: either a number or a
non-numeric value (the parser filters the latter out of the medal list). -/
inductive MedalEntry
  | num (n : Int)
  | str (s : String)
deriving DecidableEq, Repr

/-- Numeric projection of a medal entry, mirroring the
`typeof id === 'number'` filter. -/
def MedalEntry.numValue : MedalEntry → Option Int
  | .num n => some n
  | .str _ => none

/-- The `PlayerCommendations` structure received from the coordinator
(`cmd_friendly`, `cmd_teaching`, `cmd_leader`). -/
structure Commendation where
  cmd_friendly : Int
  cmd_teaching : Int
  cmd_leader : Int
deriving DecidableEq, Repr

/-- The `medals` sub-object of a coordinator profile response; only the
`display_items_defidx` array is consumed by the parser. -/
structure MedalsField where
  display_items_defidx : Option (List MedalEntry)
deriving DecidableEq, Repr

/-- Coordinator profile response (`CS2ProfileResponse`): the fields consumed
by `ProfileFetcher.parseProfileResponse`.  All fields may be absent at
runtime. -/
structure CS2ProfileResponse where
  account_id : Option Int
  player_level : Option Int
  commendation : Option Commendation
  medals : Option MedalsField
deriving DecidableEq, Repr

/-- Normalized commendation counters of a parsed profile. -/
structure PlayerCommendations where
  friendly : Int
  leader : Int
  teacher : Int
deriving DecidableEq, Repr

/-- Normalized player profile (`PlayerProfile`): the record resolved by
`fetchProfile`.  `medals` holds the `medalId` values of the `ServiceMedal`
entries (no `pinId` is ever produced by the parser). -/
structure PlayerProfile where
  steamId64 : String
  commendations : PlayerCommendations
  medals : List Int
  equippedMedal : Option MedalEntry
  xpLevel : Option Int
  fetchedAt : String
deriving DecidableEq, Repr

/-! ### Medal deduplication (src/unnamed/part_000, lines 184-192)

`Array.from(new Set(list.filter(typeof number)))`: a JavaScript `Set`
keeps the first occurrence of each element in insertion order. -/

/-- One insertion step of a JavaScript `Set`: append the element unless it is
already present. -/
def setAdd (acc : List Int) (x : Int) : List Int :=
  if x ∈ acc then acc else acc ++ [x]

/-- Embeds `Array.from(new Set(l))`: deduplicate keeping first occurrences in
order. -/
def dedupFirst (l : List Int) : List Int := l.foldl setAdd []

/-! ### Response normalization (src/unnamed/part_000, lines 168-216) -/

/-- Embeds `ProfileFetcher.parseProfileResponse`: normalizes the coordinator
response into a `PlayerProfile`.  `steamId64` is the identifier argument of
the fetch call; `now` stands for `new Date().toISOString()`. -/
def parseProfileResponse (profile : CS2ProfileResponse) (steamId64 : String)
    (now : String) : PlayerProfile :=
  let commendations : PlayerCommendations :=
    { friendly := (profile.commendation.map Commendation.cmd_friendly).getD 0
      leader := (profile.commendation.map Commendation.cmd_leader).getD 0
      teacher := (profile.commendation.map Commendation.cmd_teaching).getD 0 }
  let medals : List Int :=
    match profile.medals.bind MedalsField.display_items_defidx with
    | some entries => dedupFirst (entries.filterMap MedalEntry.numValue)
    | none => []
  let equippedMedal : Option MedalEntry :=
    match profile.medals.bind MedalsField.display_items_defidx with
    | some entries => entries[0]?
    | none => none
  { steamId64 := steamId64
    commendations := commendations
    medals := medals
    equippedMedal := equippedMedal
    xpLevel := profile.player_level
    fetchedAt := now }

/-! ### fetchProfile as a trace-producing computation
(src/unnamed/part_000, lines 88-160)

The per-identifier response listener registered with `gc.once` is embedded
as a counted resource of the emitter.  `once` registration increments the
count; firing the event consumes one registered listener (the emitter
deregisters a `once` listener before invoking it); `removeListener`
removes one registered listener if any is present, and is a no-op
otherwise.  `removed` counts the effective deregistrations. -/

/-- Listener bookkeeping of the coordinator emitter for one
`playersProfile#id` event. -/
structure EmitterState where
  onceListeners : Nat
  removed : Nat
deriving DecidableEq, Repr

/-- The emitter with no listener registered for the event. -/
def EmitterState.initial : EmitterState := { onceListeners := 0, removed := 0 }

/-- Embeds `gc.once(eventName, handler)`: register one one-shot listener. -/
def EmitterState.registerOnce (e : EmitterState) : EmitterState :=
  { e with onceListeners := e.onceListeners + 1 }

/-- Firing the event: a `once` listener, if present, is deregistered and its
handler runs (`true`); with no listener registered nothing happens
(`false`). -/
def EmitterState.fire (e : EmitterState) : EmitterState × Bool :=
  if e.onceListeners > 0 then
    ({ onceListeners := e.onceListeners - 1, removed := e.removed + 1 }, true)
  else (e, false)

/-- Embeds `gc.removeListener(eventName, handler)`: remove one registered listener
if present, no-op otherwise. -/
def EmitterState.removeListener (e : EmitterState) : EmitterState :=
  if e.onceListeners > 0 then
    { onceListeners := e.onceListeners - 1, removed := e.removed + 1 }
  else e

/-- Collaborator calls `fetchProfile` makes on the coordinator client. -/
inductive GcCall
  | registerOnce (eventName : String)
  | startTimer (ms : Nat)
  | sendRequest (steamId64 : String)
deriving DecidableEq, Repr

/-- Outcome of one `fetchProfile` promise. -/
inductive FetchResult
  | resolved (p : PlayerProfile)
  | rejected (msg : String)
deriving DecidableEq, Repr

/-- Which asynchronous event settles the request after a successful send:
a response event (with its raw payload properties) or the 30-second timer.
`isObject` is the `typeof profile === 'object'` type guard; `parseOk` is
whether the body of the response handler's `try` block (parsing plus the
optional file-cache write) succeeds. -/
inductive FetchScenario
  | response (isObject : Bool) (profile : CS2ProfileResponse) (parseOk : Bool)
  | timeout
deriving DecidableEq, Repr

/-- Value of `TIMING.PROFILE_REQUEST_TIMEOUT_MS` (src/unnamed/part_000, line 12). -/
def PROFILE_REQUEST_TIMEOUT_MS : Nat := 30000

/-- Rejection message for a malformed identifier (line 92). -/
def invalidIdMsg : String := "Invalid Steam ID 64 format. Must be 17 digits."

/-- Rejection message of the request timer (line 142). -/
def timeoutMsg (steamId64 : String) : String :=
  "Timeout waiting for profile response for " ++ steamId64

/-- Event name carrying the response for one identifier (line 100). -/
def eventNameFor (steamId64 : String) : String :=
  "playersProfile#" ++ steamId64

/-- Result of running one `fetchProfile` call to completion: the settled
promise, the collaborator calls made, and the final listener bookkeeping. -/
structure FetchRun where
  result : FetchResult
  calls : List GcCall
  emitter : EmitterState
deriving DecidableEq, Repr

/-- Embeds `ProfileFetcher.fetchProfile` run to settlement.  `sendOk` is whether
`gc.requestPlayersProfile` exists and returns without throwing;
`sendErrMsg` / `parseErrMsg` are the messages of the corresponding
failures; `sc` selects the asynchronous event that settles the request.
The file cache is disabled (the default configuration), so the `try`
block of the response handler is parsing alone except through `parseOk`. -/
def fetchProfile (steamId64 : String) (now : String) (sendOk : Bool)
    (sendErrMsg parseErrMsg : String) (sc : FetchScenario) : FetchRun :=
  if isValidSteamId64 steamId64 then
    -- gc.once(eventName, responseHandler); setTimeout(...); send
    let e1 := EmitterState.initial.registerOnce
    let calls := [GcCall.registerOnce (eventNameFor steamId64),
                  GcCall.startTimer PROFILE_REQUEST_TIMEOUT_MS,
                  GcCall.sendRequest steamId64]
    if sendOk then
      match sc with
      | .timeout =>
          -- timer fires: removeListener, reject with the timeout error
          { result := .rejected (timeoutMsg steamId64), calls := calls,
            emitter := e1.removeListener }
      | .response isObject profile parseOk =>
          -- the once listener fires: it is deregistered, then the handler runs
          let e2 := (e1.fire).1
          if isObject then
            if parseOk then
              -- clearTimeout; parse; removeListener (already deregistered); resolve
              { result := .resolved (parseProfileResponse profile steamId64 now),
                calls := calls, emitter := e2.removeListener }
            else
              -- clearTimeout; parse throws; catch: removeListener; reject
              { result := .rejected parseErrMsg, calls := calls,
                emitter := e2.removeListener }
          else
            -- type guard throws before the try block: the timer is never
            -- cleared, so it later fires: removeListener (no-op), reject
            { result := .rejected (timeoutMsg steamId64), calls := calls,
              emitter := e2.removeListener }
    else
      -- send threw synchronously: clearTimeout; removeListener; reject
      { result := .rejected sendErrMsg, calls := calls,
        emitter := e1.removeListener }
  else
    -- validation rejects before any listener, timer or coordinator call
    { result := .rejected invalidIdMsg, calls := [],
      emitter := EmitterState.initial }

/-! ### GCConnection readiness state machine
(src/unnamed/part_001, lines 20-163) -/

/-- The two boolean flags of `GCConnection`. -/
structure GCState where
  isConnected : Bool
  isReady : Bool
deriving DecidableEq, Repr

/-- Constructor state of `GCConnection` (lines 22-23). -/
def GCState.initial : GCState := { isConnected := false, isReady := false }

/-- Events delivered by the coordinator client to the listeners installed by
`GCConnection.setupEventListeners`.  `connectionStatus` carries the raw
numeric status code (0=NoSession, 1=NoUserSession, 2=NoSessionButUser,
3=Queue, 4=Connected). -/
inductive GCEvent
  | connectedToGC
  | disconnectedFromGC (reason : Nat)
  | connectionStatus (status : Nat)
  | errorEvent (msg : String)
deriving DecidableEq, Repr

/-- Embeds `GCConnection.setupEventListeners` (lines 35-95): the state transition
performed by the handler of each coordinator event. -/
def gcStep (s : GCState) : GCEvent → GCState
  | .connectedToGC => { isConnected := true, isReady := true }
  | .disconnectedFromGC _ => { isConnected := false, isReady := false }
  | .connectionStatus status =>
      if status == 2 then
        -- NO_SESSION error: reset state
        { isConnected := false, isReady := false }
      else if status == 4 then
        -- Connected: state will be set by connectedToGC event
        s
      else if status == 3 then
        -- Queue status: don't reset
        s
      else
        { s with isReady := false }
  | .errorEvent _ => { isConnected := false, isReady := false }

/-- Embeds `GCConnection.isGcReady` (lines 152-154). -/
def isGcReady (s : GCState) : Bool := s.isReady && s.isConnected

/-! ### SteamAuth disconnect watchdog
(src/unnamed/part_001, lines 199-200, 453-485) -/

/-- Value of `MAX_DISCONNECTS` (line 200). -/
def MAX_DISCONNECTS : Nat := 5

/-- Watchdog state of `SteamAuth`: the disconnect counter and whether
`process.exit(1)` has been invoked. -/
structure WatchdogState where
  disconnectCount : Nat
  exitCalled : Bool
deriving DecidableEq, Repr

/-- Constructor state (line 199): counter zero, process alive. -/
def WatchdogState.initial : WatchdogState :=
  { disconnectCount := 0, exitCalled := false }

/-- Presence-service events consumed by the watchdog listeners of
`SteamAuth.setupEventListeners` (lines 455-469). -/
inductive SteamEvent
  | loggedOn
  | errorEvent (msg : String)
  | disconnected (eresult : Nat)
deriving DecidableEq, Repr

/-- Embeds `SteamAuth.handleDisconnect` (lines 476-485): increment the counter and
invoke the process-fatal path once it reaches the threshold. -/
def handleDisconnect (s : WatchdogState) : WatchdogState :=
  let c := s.disconnectCount + 1
  { disconnectCount := c,
    exitCalled := s.exitCalled || decide (c ≥ MAX_DISCONNECTS) }

/-- The watchdog transition for one presence-service event: `loggedOn`
resets the counter (line 456); `error` and `disconnected` both call
`handleDisconnect` (lines 461-469). -/
def watchdogStep (s : WatchdogState) : SteamEvent → WatchdogState
  | .loggedOn => { s with disconnectCount := 0 }
  | .errorEvent _ => handleDisconnect s
  | .disconnected _ => handleDisconnect s

/-- Applies `n` consecutive disconnect events applied to a watchdog state. -/
def iterDisconnect : Nat → WatchdogState → WatchdogState
  | 0, s => s
  | n + 1, s => watchdogStep (iterDisconnect n s) (.disconnected 0)

/-! ### Credential store: token file format
(src/unnamed/part_001, lines 262-374 and 491-531)

File contents are embedded at the level of parsed JSON values: writing a
JSON text and parsing it back recovers the same JSON value. -/

/-- A JSON value, the parse of a persisted artifact file. -/
inductive Json
  | str (s : String)
  | num (n : Int)
  | bool (b : Bool)
  | null
  | arr (elems : List Json)
  | obj (fields : List (String × Json))

/-- Property lookup on a JSON object (`'token' in parsed` / `parsed.token`). -/
def lookupField : List (String × Json) → String → Option Json
  | [], _ => none
  | (k, v) :: rest, key => if k == key then some v else lookupField rest key

/-- Embeds `SteamAuth.saveSessionData` specialized to the token path
(`filename === this.tokenPath`) with a bare-string `data` (lines 287-333):
a non-empty string is a truthy `tokenValue` and is wrapped into the
structured form `{token, accountName, savedAt}`; an empty string is falsy,
so the fallback `JSON.stringify(data)` writes the bare JSON string. -/
def saveTokenFileContent (accountName savedAt s : String) : Json :=
  if s == "" then
    Json.str s
  else
    Json.obj [("token", Json.str s),
              ("accountName", Json.str accountName),
              ("savedAt", Json.str savedAt)]

/-- Embeds `SteamAuth.loadMachineAuthToken` (lines 491-531) applied to a token file
whose content parses as JSON: a JSON object carrying a `token` property
yields that property's value; any other JSON value is returned whole. -/
def loadMachineAuthToken (content : Json) : Json :=
  match content with
  | .obj fields =>
      match lookupField fields "token" with
      | some t => t
      | none => .obj fields
  | other => other

/-! ### SteamAuth login-method selection and key-failure handling
(src/unnamed/part_001, lines 674-817) -/

/-- Calls to `client.logOn` made during one `login` invocation, keyed by the
shape of the options object. -/
inductive LogOnCall
  | withRefreshToken (token : String)
  | withLoginKey (accountName key : String)
  | withPassword (accountName password : String)
deriving DecidableEq, Repr

/-- Which event the presence client emits for the pending `logOn`. -/
inductive LoginEvent
  | loggedOn
  | errorEvent (msg : String)
deriving DecidableEq, Repr

/-- Settled outcome of one `login` promise. -/
inductive LoginResult
  | success
  | failure (msg : String)
deriving DecidableEq, Repr

/-- Persisted credential files consulted by `login`; only the session-key
file matters for method selection (the machine-auth token and sentry enrich
the password path). -/
structure CredentialFiles where
  loginKeyFile : Option String
deriving DecidableEq, Repr

/-- Character-list version of `String.startsWith`, executable by kernel
reduction. -/
def charsStartWith : List Char → List Char → Bool
  | _, [] => true
  | [], _ :: _ => false
  | c :: cs, p :: ps => c == p && charsStartWith cs ps

/-- JavaScript `s.startsWith(p)`. -/
def jsStartsWith (s p : String) : Bool := charsStartWith s.data p.data

/-- JavaScript `s.trim()`: drop whitespace from both ends. -/
def jsTrim (s : String) : String :=
  ⟨((s.data.dropWhile Char.isWhitespace).reverse.dropWhile
      Char.isWhitespace).reverse⟩

/-- JWT shape test of `loginWithKey` (line 754): refresh tokens begin with
one of the two base64 JSON-header prefixes. -/
def isRefreshToken (key : String) : Bool :=
  jsStartsWith key "eyJ" || jsStartsWith key "eyA"

/-- Result of running a login path to settlement: the promise outcome, the
credential files afterwards, and the `logOn` calls made. -/
structure LoginRun where
  result : LoginResult
  files : CredentialFiles
  calls : List LogOnCall
deriving DecidableEq, Repr

/-- Embeds `SteamAuth.loginWithKey` (lines 750-801) run to settlement.  On the
`error` event the handler calls `handleInvalidLoginKey` (lines 808-817),
which deletes the login-key file, and then rejects with the error; it never
issues a password `logOn`. -/
def loginWithKey (username loginKey : String) (files : CredentialFiles)
    (ev : LoginEvent) : LoginRun :=
  let call :=
    if isRefreshToken loginKey then LogOnCall.withRefreshToken loginKey
    else LogOnCall.withLoginKey username loginKey
  match ev with
  | .loggedOn =>
      { result := .success, files := files, calls := [call] }
  | .errorEvent msg =>
      { result := .failure msg,
        files := { files with loginKeyFile := none },
        calls := [call] }

/-- Embeds `SteamAuth.loginWithPassword` (lines 999-1121) run to settlement,
abstracting the post-login token extraction (which never changes the
outcome). -/
def loginWithPassword (username password : String) (files : CredentialFiles)
    (ev : LoginEvent) : LoginRun :=
  match ev with
  | .loggedOn =>
      { result := .success, files := files,
        calls := [LogOnCall.withPassword username password] }
  | .errorEvent msg =>
      { result := .failure msg, files := files,
        calls := [LogOnCall.withPassword username password] }

/-- Embeds `SteamAuth.loadLoginKey` (lines 619-643): the persisted key, trimmed;
a missing file or an empty-after-trim content yields `none`. -/
def loadLoginKey (files : CredentialFiles) : Option String :=
  match files.loginKeyFile with
  | none => none
  | some raw =>
      let trimmed := jsTrim raw
      if trimmed.length == 0 then none else some trimmed

/-- Embeds `SteamAuth.login` (lines 674-742): prefer the persisted session key and
return `loginWithKey`'s promise; only when no key is loadable does the call
take the password path. -/
def login (username password : String) (files : CredentialFiles)
    (ev : LoginEvent) : LoginRun :=
  match loadLoginKey files with
  | some key => loginWithKey username key files ev
  | none => loginWithPassword username password files ev

/-! ### API server profile endpoint
(src/unnamed/part_002, lines 287-334) -/

/-- Observable HTTP response of the profile route. -/
structure HttpResponse where
  status : Nat
  errorField : Option String
  messageField : Option String
  profileBody : Option PlayerProfile
  cachedFlag : Option Bool
deriving DecidableEq, Repr

/-- Embeds `APIServer.setupRoutes`, handler of `GET /api/profile/:steamId64`:
validate the identifier, gate on coordinator readiness, consult the file
cache when enabled, then fetch; a fetch rejection becomes a 500 response
carrying the error's message.  `gcReady` is `gcConnection.isGcReady()`;
`cacheEnabled` is the `ENABLE_FILE_CACHE` flag; `cachedProfile` is the
result of `loadProfileFromFile`; `forceQuery` is `req.query.force ===
'true'`; `fetchResult` is the settled outcome of `fetchProfile`. -/
def profileEndpoint (steamId64 : String) (gcReady cacheEnabled : Bool)
    (cachedProfile : Option PlayerProfile) (forceQuery : Bool)
    (fetchResult : FetchResult) : HttpResponse :=
  if !(isValidSteamId64 steamId64) then
    { status := 400,
      errorField := some "Invalid Steam ID 64 format. Must be 17 digits.",
      messageField := none, profileBody := none, cachedFlag := none }
  else if !gcReady then
    { status := 503,
      errorField := some "Game Coordinator not ready. Please wait for connection.",
      messageField := none, profileBody := none, cachedFlag := none }
  else
    let fetchBranch :=
      match fetchResult with
      | .resolved p =>
          { status := 200, errorField := none, messageField := none,
            profileBody := some p, cachedFlag := some false : HttpResponse }
      | .rejected msg =>
          { status := 500,
            errorField := some "Failed to fetch player profile",
            messageField := some msg, profileBody := none,
            cachedFlag := none }
    if cacheEnabled then
      match cachedProfile with
      | some cached =>
          if !forceQuery then
            { status := 200, errorField := none, messageField := none,
              profileBody := some cached, cachedFlag := some true }
          else fetchBranch
      | none => fetchBranch
    else fetchBranch

/-! ### Sample inputs for concrete instantiations -/

/-- A sample coordinator response: the `account_id` differs from every
17-digit identifier, the badge list contains a duplicate and a non-numeric
entry. -/
def sampleResponse : CS2ProfileResponse :=
  { account_id := some 999
    player_level := some 12
    commendation := some { cmd_friendly := 1, cmd_teaching := 2, cmd_leader := 3 }
    medals := some (MedalsField.mk (some
      [MedalEntry.num 5, MedalEntry.num 5, MedalEntry.str "x",
        MedalEntry.num 3])) }

/-- A sample coordinator response with no `medals` sub-object at all. -/
def sampleResponseNoMedals : CS2ProfileResponse :=
  { account_id := none, player_level := none, commendation := none,
    medals := none }

/-! ### Helper lemmas on the Set-based deduplication -/

/-- Membership after one `Set` insertion. -/
theorem mem_setAdd {acc : List Int} {x y : Int} :
    y ∈ setAdd acc x ↔ y ∈ acc ∨ y = x := by
  unfold setAdd
  split
  · next hx =>
      constructor
      · exact Or.inl
      · rintro (h | rfl)
        · exact h
        · exact hx
  · simp [List.mem_append]

/-- One `Set` insertion preserves the no-duplicates invariant. -/
theorem nodup_setAdd {acc : List Int} {x : Int} (h : acc.Nodup) :
    (setAdd acc x).Nodup := by
  unfold setAdd
  split
  · exact h
  · next hx => simp [List.nodup_append, h, hx]

/-- Folding `Set` insertions preserves the no-duplicates invariant. -/
theorem nodup_foldl_setAdd :
    ∀ (l acc : List Int), acc.Nodup → (l.foldl setAdd acc).Nodup
  | [], _, h => h
  | x :: xs, acc, h => nodup_foldl_setAdd xs (setAdd acc x) (nodup_setAdd h)

/-- Membership in a fold of `Set` insertions. -/
theorem mem_foldl_setAdd (l : List Int) :
    ∀ (acc : List Int) (y : Int), y ∈ l.foldl setAdd acc ↔ y ∈ acc ∨ y ∈ l := by
  induction l with
  | nil => simp
  | cons x xs ih =>
      intro acc y
      rw [List.foldl_cons, ih, mem_setAdd, List.mem_cons]
      tauto

/-- The list `Array.from(new Set(l))` has no duplicates. -/
theorem nodup_dedupFirst (l : List Int) : (dedupFirst l).Nodup :=
  nodup_foldl_setAdd l [] List.nodup_nil

/-- The list `Array.from(new Set(l))` has the same members as `l`. -/
theorem mem_dedupFirst {l : List Int} {y : Int} : y ∈ dedupFirst l ↔ y ∈ l := by
  unfold dedupFirst
  rw [mem_foldl_setAdd]
  simp

/-- The projection `numValue` hits `some` exactly on numeric entries. -/
theorem numValue_eq_some {a : MedalEntry} {x : Int} :
    a.numValue = some x ↔ a = MedalEntry.num x := by
  cases a <;> simp [MedalEntry.numValue]

/-! ### Claim theorems -/

/-- Claim C7: for every successful coordinator response containing a badge
list, the normalized record's medal set contains no duplicate identifiers
and contains exactly the numeric entries of the list. -/
theorem claim_C7_medals_nodup_numeric (profile : CS2ProfileResponse)
    (m : MedalsField) (entries : List MedalEntry) (steamId64 now : String)
    (hm : profile.medals = some m)
    (hd : m.display_items_defidx = some entries) :
    (parseProfileResponse profile steamId64 now).medals.Nodup ∧
      ∀ x : Int, x ∈ (parseProfileResponse profile steamId64 now).medals ↔
        MedalEntry.num x ∈ entries := by
  simp only [parseProfileResponse, hm, hd, Option.some_bind]
  refine ⟨nodup_dedupFirst _, fun x => ?_⟩
  rw [mem_dedupFirst, List.mem_filterMap]
  constructor
  · rintro ⟨a, ha, hav⟩
    rw [numValue_eq_some] at hav
    rw [hav] at ha
    exact ha
  · intro hx
    exact ⟨MedalEntry.num x, hx, rfl⟩

/-- Claim C8: the equipped medal equals the first element of the
service-reported badge list (in service order), and is absent when the list
is empty or missing. -/
theorem claim_C8_equipped_is_first (profile : CS2ProfileResponse)
    (steamId64 now : String) :
    (∀ m entries, profile.medals = some m →
        m.display_items_defidx = some entries →
        (parseProfileResponse profile steamId64 now).equippedMedal =
          entries.head?) ∧
      (profile.medals.bind MedalsField.display_items_defidx = none →
        (parseProfileResponse profile steamId64 now).equippedMedal = none) := by
  constructor
  · intro m entries hm hd
    simp only [parseProfileResponse, hm, hd, Option.some_bind]
    exact Eq.symm (List.head?_eq_getElem? entries)
  · intro h
    simp only [parseProfileResponse, h]

/-- Claim C10: every successfully resolved `fetchProfile` call returns a
record whose `steamId64` is the identifier argument of the call, regardless
of the response's own `account_id` field. -/
theorem claim_C10_identifier_from_request
    (steamId64 now sendErrMsg parseErrMsg : String) (sendOk : Bool)
    (sc : FetchScenario) (p : PlayerProfile)
    (h : (fetchProfile steamId64 now sendOk sendErrMsg parseErrMsg sc).result =
      FetchResult.resolved p) :
    p.steamId64 = steamId64 := by
  unfold fetchProfile at h
  split at h
  · cases sendOk with
    | false => simp at h
    | true =>
        cases sc with
        | timeout => simp at h
        | response isObject profile parseOk =>
            cases isObject with
            | false => simp at h
            | true =>
                cases parseOk with
                | false => simp at h
                | true =>
                    simp only [if_pos trivial, FetchResult.resolved.injEq] at h
                    rw [← h]
                    rfl
  · simp at h

/-- Claim C1: an identifier that is not exactly 17 decimal digits is
rejected with the invalid-identifier error before any listener
registration, timer start, or coordinator call. -/
theorem claim_C1_invalid_id_fails_fast
    (steamId64 now sendErrMsg parseErrMsg : String) (sendOk : Bool)
    (sc : FetchScenario) (h : isValidSteamId64 steamId64 = false) :
    (fetchProfile steamId64 now sendOk sendErrMsg parseErrMsg sc).result =
        FetchResult.rejected invalidIdMsg ∧
      (fetchProfile steamId64 now sendOk sendErrMsg parseErrMsg sc).calls = [] ∧
      (fetchProfile steamId64 now sendOk sendErrMsg parseErrMsg sc).emitter =
        EmitterState.initial := by
  simp [fetchProfile, h]

/-- Claim C2: for a valid identifier, every settlement of `fetchProfile`
(response with successful or failing parse, non-object response, timeout,
send failure) leaves no listener registered and deregisters the listener
exactly once, so a late response event fires no handler; and in the timeout
scenario the promise is rejected with the timeout error. -/
theorem claim_C2_listener_discipline
    (steamId64 now sendErrMsg parseErrMsg : String) (sendOk : Bool)
    (sc : FetchScenario) (h : isValidSteamId64 steamId64 = true) :
    (fetchProfile steamId64 now sendOk sendErrMsg parseErrMsg
        sc).emitter.onceListeners = 0 ∧
      (fetchProfile steamId64 now sendOk sendErrMsg parseErrMsg
        sc).emitter.removed = 1 ∧
      ((fetchProfile steamId64 now sendOk sendErrMsg parseErrMsg
        sc).emitter.fire).2 = false ∧
      (sendOk = true → sc = FetchScenario.timeout →
        (fetchProfile steamId64 now sendOk sendErrMsg parseErrMsg sc).result =
          FetchResult.rejected (timeoutMsg steamId64)) := by
  cases sc with
  | timeout =>
      cases sendOk <;>
        simp [fetchProfile, h, EmitterState.initial, EmitterState.registerOnce,
          EmitterState.removeListener, EmitterState.fire]
  | response isObject profile parseOk =>
      cases sendOk <;> cases isObject <;> cases parseOk <;>
        simp [fetchProfile, h, EmitterState.initial, EmitterState.registerOnce,
          EmitterState.removeListener, EmitterState.fire]

/-- The disconnect counter after `n` consecutive disconnect events from a
freshly-reset watchdog state, and whether the process-fatal path has been
invoked. -/
theorem iterDisconnect_spec (s : WatchdogState) (h0 : s.disconnectCount = 0)
    (he : s.exitCalled = false) (n : Nat) :
    (iterDisconnect n s).disconnectCount = n ∧
      (iterDisconnect n s).exitCalled = decide (MAX_DISCONNECTS ≤ n) := by
  induction n with
  | zero => simp [iterDisconnect, h0, he, MAX_DISCONNECTS]
  | succ k ih =>
      obtain ⟨ihc, ihe⟩ := ih
      unfold iterDisconnect watchdogStep handleDisconnect
      rw [ihc, ihe]
      refine ⟨rfl, ?_⟩
      by_cases hk : MAX_DISCONNECTS ≤ k
      · have hk1 : MAX_DISCONNECTS ≤ k + 1 := Nat.le_succ_of_le hk
        simp [hk, hk1, ge_iff_le]
      · have : (decide (MAX_DISCONNECTS ≤ k)) = false := by simp [hk]
        simp [this, ge_iff_le]

/-- Claim C3: the disconnect counter is incremented by one on every
presence-service error or disconnected event; from a reset state the
process-fatal path is invoked exactly on the 5th consecutive such event;
a successful login resets the counter to zero, so the next disconnect
counts from 1. -/
theorem claim_C3_disconnect_watchdog (s : WatchdogState) :
    (∀ (msg : String) (er : Nat),
        (watchdogStep s (.errorEvent msg)).disconnectCount =
            s.disconnectCount + 1 ∧
          (watchdogStep s (.disconnected er)).disconnectCount =
            s.disconnectCount + 1) ∧
      (s.disconnectCount = 0 → s.exitCalled = false →
        (∀ n, n < MAX_DISCONNECTS → (iterDisconnect n s).exitCalled = false) ∧
          (iterDisconnect MAX_DISCONNECTS s).exitCalled = true) ∧
      (watchdogStep s .loggedOn).disconnectCount = 0 ∧
      (watchdogStep (watchdogStep s .loggedOn)
          (.disconnected 0)).disconnectCount = 1 := by
  refine ⟨fun msg er => ⟨rfl, rfl⟩, fun h0 he => ⟨fun n hn => ?_, ?_⟩, rfl, rfl⟩
  · rw [(iterDisconnect_spec s h0 he n).2]
    simp
    omega
  · rw [(iterDisconnect_spec s h0 he MAX_DISCONNECTS).2]
    simp

/-- Claim C4: coordinator readiness is established only by the explicit
`connectedToGC` event (no other event, including the `Connected` status
code, can turn `isGcReady` from false to true), and every `error` or
`disconnectedFromGC` event forces `isGcReady` to false from any state. -/
theorem claim_C4_readiness_transitions (s : GCState) (e : GCEvent) :
    (∀ msg, isGcReady (gcStep s (.errorEvent msg)) = false) ∧
      (∀ r, isGcReady (gcStep s (.disconnectedFromGC r)) = false) ∧
      (e ≠ GCEvent.connectedToGC → isGcReady (gcStep s e) = true →
        isGcReady s = true) := by
  refine ⟨fun msg => by simp [gcStep, isGcReady],
    fun r => by simp [gcStep, isGcReady], fun hne h => ?_⟩
  cases e with
  | connectedToGC => exact absurd rfl hne
  | disconnectedFromGC r => simp [gcStep, isGcReady] at h
  | errorEvent msg => simp [gcStep, isGcReady] at h
  | connectionStatus st =>
      simp only [gcStep] at h
      split at h
      · simp [isGcReady] at h
      · split at h
        · exact h
        · split at h
          · exact h
          · simp [isGcReady] at h

/-- Claim C5: when a login attempted with a persisted session key fails,
the key file is deleted, the failure is returned to the caller, and the
call never issues a password `logOn`. -/
theorem claim_C5_key_failure_deletes_and_surfaces
    (username password raw msg : String) (files : CredentialFiles)
    (hfile : files.loginKeyFile = some raw)
    (hne : (jsTrim raw).length ≠ 0) :
    (login username password files (.errorEvent msg)).result =
        LoginResult.failure msg ∧
      (login username password files (.errorEvent msg)).files.loginKeyFile =
        none ∧
      ∀ u p, LogOnCall.withPassword u p ∉
        (login username password files (.errorEvent msg)).calls := by
  have hbeq : ((jsTrim raw).length == 0) = false := by
    simpa using hne
  unfold login loadLoginKey
  rw [hfile]
  simp only [hbeq, Bool.false_eq_true, if_false]
  unfold loginWithKey
  cases hrt : isRefreshToken (jsTrim raw) <;> simp

/-- Claim C6: saving a machine auth token given as a non-empty bare string
writes a structured artifact whose `token` field is the original string,
and loading the file back recovers exactly that string. -/
theorem claim_C6_token_roundtrip (s accountName savedAt : String)
    (h : s ≠ "") :
    (∃ fields, saveTokenFileContent accountName savedAt s = Json.obj fields ∧
        lookupField fields "token" = some (Json.str s)) ∧
      loadMachineAuthToken (saveTokenFileContent accountName savedAt s) =
        Json.str s := by
  have hbeq : (s == "") = false := by simpa using h
  unfold saveTokenFileContent
  simp only [hbeq, Bool.false_eq_true, if_false]
  refine ⟨⟨_, rfl, ?_⟩, ?_⟩
  · simp [lookupField]
  · simp [loadMachineAuthToken, lookupField]

/-- Claim C9: the profile route returns 400 for a malformed identifier,
503 when the coordinator is not ready, and maps every fetch rejection to a
500 response whose body carries the underlying error's message. -/
theorem claim_C9_http_status_mapping (steamId64 : String)
    (gcReady cacheEnabled : Bool) (cachedProfile : Option PlayerProfile)
    (forceQuery : Bool) (fetchResult : FetchResult) (msg : String) :
    (isValidSteamId64 steamId64 = false →
        (profileEndpoint steamId64 gcReady cacheEnabled cachedProfile
          forceQuery fetchResult).status = 400) ∧
      (isValidSteamId64 steamId64 = true → gcReady = false →
        (profileEndpoint steamId64 gcReady cacheEnabled cachedProfile
          forceQuery fetchResult).status = 503) ∧
      (isValidSteamId64 steamId64 = true → gcReady = true →
        (cacheEnabled = false ∨ cachedProfile = none ∨ forceQuery = true) →
        fetchResult = FetchResult.rejected msg →
        (profileEndpoint steamId64 gcReady cacheEnabled cachedProfile
            forceQuery fetchResult).status = 500 ∧
          (profileEndpoint steamId64 gcReady cacheEnabled cachedProfile
            forceQuery fetchResult).messageField = some msg) := by
  refine ⟨fun hv => ?_, fun hv hr => ?_, fun hv hr hc hf => ?_⟩
  · simp [profileEndpoint, hv]
  · simp [profileEndpoint, hv, hr]
  · subst hf
    rcases hc with hc | hc | hc
    · subst hc
      rcases cachedProfile with _ | cached <;> cases forceQuery <;>
        simp [profileEndpoint, hv, hr]
    · subst hc
      cases cacheEnabled <;> cases forceQuery <;>
        simp [profileEndpoint, hv, hr]
    · subst hc
      cases cacheEnabled <;> rcases cachedProfile with _ | cached <;>
        simp [profileEndpoint, hv, hr]

/-! ### Concrete witnesses -/

/-- Witness for claim C1 at the malformed identifier `12345`. -/
theorem claim_C1_invalid_id_fails_fast_witness :
    (fetchProfile "12345" "t" true "se" "pe" FetchScenario.timeout).result =
        FetchResult.rejected invalidIdMsg ∧
      (fetchProfile "12345" "t" true "se" "pe" FetchScenario.timeout).calls =
        [] ∧
      (fetchProfile "12345" "t" true "se" "pe" FetchScenario.timeout).emitter =
        EmitterState.initial :=
  claim_C1_invalid_id_fails_fast "12345" "t" "se" "pe" true
    FetchScenario.timeout (by decide)

/-- Witness for claim C2 at a valid identifier with the timeout scenario. -/
theorem claim_C2_listener_discipline_witness :
    (fetchProfile "76561199441016438" "t" true "se" "pe"
        FetchScenario.timeout).emitter.onceListeners = 0 ∧
      (fetchProfile "76561199441016438" "t" true "se" "pe"
        FetchScenario.timeout).emitter.removed = 1 ∧
      ((fetchProfile "76561199441016438" "t" true "se" "pe"
        FetchScenario.timeout).emitter.fire).2 = false ∧
      (fetchProfile "76561199441016438" "t" true "se" "pe"
          FetchScenario.timeout).result =
        FetchResult.rejected (timeoutMsg "76561199441016438") := by
  have h := claim_C2_listener_discipline "76561199441016438" "t" "se" "pe"
    true FetchScenario.timeout (by decide)
  exact ⟨h.1, h.2.1, h.2.2.1, h.2.2.2 rfl rfl⟩

/-- Witness for claim C3 from the constructor state: four disconnects do
not exit, the fifth does, and a disconnect right after a login counts 1. -/
theorem claim_C3_disconnect_watchdog_witness :
    (iterDisconnect 4 WatchdogState.initial).exitCalled = false ∧
      (iterDisconnect 5 WatchdogState.initial).exitCalled = true ∧
      (watchdogStep (watchdogStep WatchdogState.initial SteamEvent.loggedOn)
        (SteamEvent.disconnected 0)).disconnectCount = 1 := by
  have h := claim_C3_disconnect_watchdog WatchdogState.initial
  exact ⟨(h.2.1 rfl rfl).1 4 (by decide), (h.2.1 rfl rfl).2, h.2.2.2⟩

/-- Witness for claim C4 at the fully-ready state: error and disconnect
downgrade it, and the `Connected` status code is not what made it ready. -/
theorem claim_C4_readiness_transitions_witness :
    isGcReady (gcStep { isConnected := true, isReady := true }
        (GCEvent.errorEvent "boom")) = false ∧
      isGcReady (gcStep { isConnected := true, isReady := true }
        (GCEvent.disconnectedFromGC 3)) = false ∧
      isGcReady { isConnected := true, isReady := true } = true := by
  have h := claim_C4_readiness_transitions
    { isConnected := true, isReady := true } (GCEvent.connectionStatus 4)
  exact ⟨h.1 "boom", h.2.1 3, h.2.2 (by decide) (by decide)⟩

/-- Witness for claim C5 with a persisted non-JWT key rejected by the
service. -/
theorem claim_C5_key_failure_witness :
    (login "u" "p" { loginKeyFile := some "somekey" }
        (.errorEvent "InvalidPassword")).result =
        LoginResult.failure "InvalidPassword" ∧
      (login "u" "p" { loginKeyFile := some "somekey" }
        (.errorEvent "InvalidPassword")).files.loginKeyFile = none ∧
      LogOnCall.withPassword "u" "p" ∉
        (login "u" "p" { loginKeyFile := some "somekey" }
          (.errorEvent "InvalidPassword")).calls := by
  have h := claim_C5_key_failure_deletes_and_surfaces "u" "p" "somekey"
    "InvalidPassword" { loginKeyFile := some "somekey" } rfl (by decide)
  exact ⟨h.1, h.2.1, h.2.2 "u" "p"⟩

/-- Witness for claim C6 at the token string `tok123`. -/
theorem claim_C6_token_roundtrip_witness :
    (∃ fields, saveTokenFileContent "acct" "2024-01-01" "tok123" =
        Json.obj fields ∧
        lookupField fields "token" = some (Json.str "tok123")) ∧
      loadMachineAuthToken
          (saveTokenFileContent "acct" "2024-01-01" "tok123") =
        Json.str "tok123" :=
  claim_C6_token_roundtrip "tok123" "acct" "2024-01-01" (by decide)

/-- Witness for claim C7 at a badge list with a duplicate and a non-numeric
entry. -/
theorem claim_C7_medals_witness :
    (parseProfileResponse sampleResponse "76561199441016438"
        "t").medals.Nodup ∧
      (5 ∈ (parseProfileResponse sampleResponse "76561199441016438"
          "t").medals ↔
        MedalEntry.num 5 ∈
          [MedalEntry.num 5, MedalEntry.num 5, MedalEntry.str "x",
            MedalEntry.num 3]) := by
  have h := claim_C7_medals_nodup_numeric sampleResponse
    { display_items_defidx :=
        some [.num 5, .num 5, .str "x", .num 3] }
    [.num 5, .num 5, .str "x", .num 3] "76561199441016438" "t" rfl rfl
  exact ⟨h.1, h.2 5⟩

/-- Witness for claim C8: equipped medal of the sample response is the
first raw entry, and is absent when `medals` is missing. -/
theorem claim_C8_equipped_witness :
    (parseProfileResponse sampleResponse "76561199441016438"
        "t").equippedMedal =
      [MedalEntry.num 5, MedalEntry.num 5, MedalEntry.str "x",
        MedalEntry.num 3].head? ∧
      (parseProfileResponse sampleResponseNoMedals "76561199441016438"
        "t").equippedMedal = none := by
  refine ⟨?_, ?_⟩
  · exact (claim_C8_equipped_is_first sampleResponse "76561199441016438"
      "t").1 _ _ rfl rfl
  · exact (claim_C8_equipped_is_first sampleResponseNoMedals
      "76561199441016438" "t").2 rfl

/-- Witness for claim C9: the three status mappings at concrete inputs. -/
theorem claim_C9_http_status_mapping_witness :
    (profileEndpoint "12345" true false none false
        (FetchResult.rejected "boom")).status = 400 ∧
      (profileEndpoint "76561199441016438" false false none false
        (FetchResult.rejected "boom")).status = 503 ∧
      (profileEndpoint "76561199441016438" true false none false
          (FetchResult.rejected "boom")).status = 500 ∧
      (profileEndpoint "76561199441016438" true false none false
          (FetchResult.rejected "boom")).messageField = some "boom" := by
  refine ⟨?_, ?_, ?_, ?_⟩
  · exact (claim_C9_http_status_mapping "12345" true false none false
      (FetchResult.rejected "boom") "boom").1 (by decide)
  · exact (claim_C9_http_status_mapping "76561199441016438" false false none
      false (FetchResult.rejected "boom") "boom").2.1 (by decide) rfl
  · exact ((claim_C9_http_status_mapping "76561199441016438" true false none
      false (FetchResult.rejected "boom") "boom").2.2 (by decide) rfl
      (Or.inl rfl) rfl).1
  · exact ((claim_C9_http_status_mapping "76561199441016438" true false none
      false (FetchResult.rejected "boom") "boom").2.2 (by decide) rfl
      (Or.inl rfl) rfl).2

/-- Witness for claim C10: a resolved fetch whose response carries
`account_id = 999`, different from the requested identifier, still yields a
record keyed by the request identifier. -/
theorem claim_C10_identifier_witness :
    (parseProfileResponse sampleResponse "76561199441016438" "t").steamId64 =
      "76561199441016438" :=
  claim_C10_identifier_from_request "76561199441016438" "t" "se" "pe" true
    (FetchScenario.response true sampleResponse true)
    (parseProfileResponse sampleResponse "76561199441016438" "t") (by decide)

end DeepScope
